import Mathlib

/-!
Verification of the invoice-validation core of `pdf_vendor_matcher.py`.

The Python class `PDFVendorMatcher` is shallowly embedded here.  Strings are
Lean strings (the invoices handled by the program are ASCII, so Python
`str.lower` coincides with a per-character ASCII lowering).  Python `None`
and pandas `NaN` are both modelled by `Option.none`.  Floats are modelled by
exact rationals.  Every external HTTP/LLM interaction is modelled by an
oracle argument describing the observable outcome of the call (parsed JSON
payload, unparseable payload, empty payload, non-200 status, or a raised
exception); the embedded functions consume the oracle exactly where the
Python code consumes the corresponding `requests` response.
-/

namespace PdfVendorMatcher

/-- Characters removed by Python `str.strip()` (the standard whitespace set). -/
def pySpace (c : Char) : Bool :=
  c == ' ' || c == '\t' || c == '\n' || c == '\r' || c == '\x0b' || c == '\x0c'

/-- Python `str.strip()` on a character list: drop leading and trailing whitespace. -/
def stripL (l : List Char) : List Char :=
  ((l.dropWhile pySpace).reverse.dropWhile pySpace).reverse

/-- Python `str.strip()` on a string. -/
def pyStrip (s : String) : String := ⟨stripL s.data⟩

/-- Python `str.lower()` (per-character ASCII lowering, all inputs here are ASCII). -/
def lowerS (s : String) : String := ⟨s.data.map Char.toLower⟩

/-- Does `n` occur at the front of `h`?  (Helper for Python substring search.) -/
def leadsB : List Char → List Char → Bool
  | [], _ => true
  | _ :: _, [] => false
  | a :: as, b :: bs => a == b && leadsB as bs

/-- Python `n in h` on strings: does `n` occur contiguously anywhere in `h`? -/
def hasSubB : List Char → List Char → Bool
  | n, [] => n.isEmpty
  | n, b :: bs => leadsB n (b :: bs) || hasSubB n bs

/-- The trimmed string `needle` occurs as a literal contiguous substring of `hay`. -/
def occursIn (needle hay : String) : Prop :=
  ∃ p t, hay.data = p ++ needle.data ++ t

/-- Python `not x or pd.isna(x)` for an optional-string field: the field is
`None`/`NaN` (modelled `none`) or the empty string (falsy). -/
def pyMissing : Option String → Bool
  | none => true
  | some s => s == ""

/-- Python truthiness of an optional string (`None` and `""` are falsy). -/
def truthyS : Option String → Bool
  | none => false
  | some s => decide (s ≠ "")

/-- Python truthiness of an optional number (`None` and `0` are falsy). -/
def truthyQ : Option Rat → Bool
  | none => false
  | some q => decide (q ≠ 0)

/-- Python `a or b` on two optional strings: `a` if truthy, else `b`. -/
def pyOr (a b : Option String) : Option String :=
  if truthyS a then a else b

/-- The recurring contact guard `x and str(x).lower() not in ['nan', '']`. -/
def realC : Option String → Bool
  | none => false
  | some s => decide (s ≠ "") && decide (lowerS s ≠ "nan")

/-- One vendor's entry of the dynamic `vendor_data` dictionary.  Field names
follow the dictionary keys the Python code reads: `main_contact_cap` is the
`"Main Contact"` key, `main_contact` the `"main_contact"` key, `admin_cap`
the `"Admin"` key, `admin` the `"admin"` key, `asst_director` the
`"Asst Director / Director"` key. -/
structure VendorInfo where
  contract_start : Option String := none
  contract_end : Option String := none
  current_po : Option String := none
  po_start : Option String := none
  po_end : Option String := none
  rate_amount : Option Rat := none
  rate_type : Option String := none
  director : Option String := none
  asst_director : Option String := none
  main_contact_cap : Option String := none
  main_contact : Option String := none
  admin_cap : Option String := none
  admin : Option String := none
deriving DecidableEq

/-- The `PDFVendorMatcher` state used by the validation methods:
`vendor_data` is the loaded registry (a Python dict, modelled as an
insertion-ordered association list), `api_configured` models
`amplify_api_url and amplify_api_key` being set. -/
structure Matcher where
  vendor_data : List (String × VendorInfo)
  api_configured : Bool
deriving DecidableEq

/-- Return dictionary of `validate_po_number`.  `po_valid` is the Python
tri-state `True`/`False`/`None`. -/
structure POResult where
  po_valid : Option Bool
  reason : String
  expected_po : Option String := none
deriving DecidableEq

/-- Return dictionary of `validate_date_range` / `_validate_dates_with_llm`. -/
structure DateResult where
  date_valid : Option Bool
  reason : String
  dates_found : List String := []
  valid_dates : List String := []
deriving DecidableEq

/-- Return dictionary of `validate_rate` / `_validate_rate_with_llm`. -/
structure RateResult where
  rate_valid : Option Bool
  reason : String
  rate_type : Option String := none
  expected_amount : Option Rat := none
  expected_type : Option String := none
  tolerance_range : Option (Rat × Rat) := none
  amounts_found : List Rat := []
  matching_amounts : List Rat := []
  is_variable : Bool := false
deriving DecidableEq

/-- Return dictionary of `_determine_contact_person`. -/
structure ContactResult where
  name : String
  role : String
  reason : String
deriving DecidableEq

/-- Parsed JSON body returned by the vendor-identification call:
`{"vendor": name-or-null}`.  A missing `vendor` key and JSON `null` both
read back as `None` via `.get`, modelled `none`. -/
structure VendorResp where
  vendor : Option String
deriving DecidableEq

/-- Observable outcome of one external HTTP/LLM call, as the Python code can
distinguish them: a 200 response whose body parses to `r` (directly or out of
a fenced code block), a 200 response with unparseable content, a 200 response
with an empty `data` field, a non-200 status, or a raised exception. -/
inductive LLMOutcome (α : Type) where
  | ok (r : α)
  | parseFail
  | emptyBody
  | httpError
  | exn (msg : String)
deriving DecidableEq

/-- `PDFVendorMatcher.validate_po_number` (lines 415-432). -/
def validate_po_number (m : Matcher) (pdf_text vendor_name : String) : POResult :=
  match m.vendor_data.lookup vendor_name with
  | none => { po_valid := some false, reason := "Vendor not found in database" }
  | some info =>
    if pyMissing info.current_po then
      { po_valid := none, reason := "No PO number in database for this vendor" }
    else
      let po_str := pyStrip (info.current_po.getD "")
      if hasSubB (lowerS po_str).data (lowerS pdf_text).data then
        { po_valid := some true, expected_po := some po_str,
          reason := "PO number found in PDF" }
      else
        { po_valid := some false, expected_po := some po_str,
          reason := "PO number not found in PDF" }

/-- `PDFVendorMatcher._validate_dates_with_llm` (lines 450-534): the interval
test itself is performed by the external service; the Python code forwards the
parsed response and maps every failure mode to `date_valid = False`. -/
def validate_dates_with_llm (m : Matcher) (o : LLMOutcome DateResult) : DateResult :=
  if !m.api_configured then
    { date_valid := some false, reason := "API not configured for date validation" }
  else
    match o with
    | .ok r => r
    | .parseFail => { date_valid := some false, reason := "Could not parse LLM response" }
    | .emptyBody => { date_valid := some false, reason := "API call failed" }
    | .httpError => { date_valid := some false, reason := "API call failed" }
    | .exn msg => { date_valid := some false, reason := "API error: " ++ msg }

/-- `PDFVendorMatcher.validate_date_range` (lines 434-448). -/
def validate_date_range (m : Matcher) (vendor_name : String)
    (o : LLMOutcome DateResult) : DateResult :=
  match m.vendor_data.lookup vendor_name with
  | none => { date_valid := some false, reason := "Vendor not found in database" }
  | some info =>
    if pyMissing info.contract_start || pyMissing info.contract_end then
      { date_valid := none, reason := "No contract date range in database for this vendor" }
    else
      validate_dates_with_llm m o

/-- `PDFVendorMatcher._validate_rate_with_llm` (lines 567-664).  The code
computes the ±5% bounds only to embed them in the prompt; the amount
comparison is made by the external service, whose parsed verdict is returned
with `expected_amount`, `expected_type` and the tolerance range attached.
Python's float literal `0.05` is modelled by the exact rational `5/100`; the
`tolerance_range` dollar string is modelled by its two endpoints. -/
def validate_rate_with_llm (m : Matcher) (pdf_text expected_rate_type : String)
    (expected_amount : Rat) (o : LLMOutcome RateResult) : RateResult :=
  if !m.api_configured then
    { rate_valid := some false, reason := "API not configured for rate validation" }
  else
    let tolerance := expected_amount * ((5 : Rat) / 100)
    let min_amount := expected_amount - tolerance
    let max_amount := expected_amount + tolerance
    match o with
    | .ok r =>
      { r with expected_amount := some expected_amount,
               expected_type := some expected_rate_type,
               tolerance_range := some (min_amount, max_amount) }
    | .parseFail => { rate_valid := some false, reason := "Could not parse LLM response" }
    | .emptyBody => { rate_valid := some false, reason := "API call failed" }
    | .httpError => { rate_valid := some false, reason := "API call failed" }
    | .exn msg => { rate_valid := some false, reason := "API error: " ++ msg }

/-- Python `str()` rendering of the optional `rate_type` value inside the
incomplete-rate f-string. -/
def pyShowOptStr : Option String → String
  | none => "None"
  | some s => s

/-- Python `str()` rendering of a float with integral value (`500.0`); the
general float rendering is abstracted by the rational's `toString`. -/
def pyFloatStr (q : Rat) : String :=
  if q.den == 1 then toString q.num ++ ".0" else toString q

/-- Python `str()` rendering of the optional `rate_amount` value inside the
incomplete-rate f-string. -/
def pyShowOptRat : Option Rat → String
  | none => "None"
  | some q => pyFloatStr q

/-- `PDFVendorMatcher.validate_rate` (lines 536-565). -/
def validate_rate (m : Matcher) (pdf_text vendor_name : String)
    (o : LLMOutcome RateResult) : RateResult :=
  match m.vendor_data.lookup vendor_name with
  | none => { rate_valid := some false, reason := "Vendor not found in database" }
  | some info =>
    let rt := info.rate_type
    let ra := info.rate_amount
    if !truthyS rt && !truthyQ ra then
      { rate_valid := none, reason := "No rate data in database for this vendor" }
    else if truthyS rt && (lowerS (rt.getD "") == "variable" || lowerS (rt.getD "") == "as needed") then
      { rate_valid := some true, rate_type := rt,
        reason := "Rate type is \x27" ++ rt.getD "" ++ "\x27 - automatic pass",
        is_variable := true }
    else if truthyS rt && truthyQ ra then
      validate_rate_with_llm m pdf_text (rt.getD "") (ra.getD 0) o
    else if truthyQ ra && !truthyS rt then
      validate_rate_with_llm m pdf_text "unknown" (ra.getD 0) o
    else
      { rate_valid := none,
        reason := "Incomplete rate data - type: " ++ pyShowOptStr rt ++ ", amount: " ++ pyShowOptRat ra }

/-- The `po_failed or date_failed or rate_failed or is_variable_rate`
condition of `_determine_contact_person` (lines 372-378). -/
def anyFailure (po : POResult) (dt : DateResult) (rt : RateResult) : Bool :=
  decide (po.po_valid = some false) || decide (dt.date_valid = some false) ||
    decide (rt.rate_valid = some false) || rt.is_variable

/-- The `reasons` list built on the admin path of `_determine_contact_person`
(lines 395-403). -/
def adminReasons (po : POResult) (dt : DateResult) (rt : RateResult) : List String :=
  (if po.po_valid = some false then ["PO validation failed"] else []) ++
    (if dt.date_valid = some false then ["date validation failed"] else []) ++
      (if rt.rate_valid = some false then ["rate validation failed"] else []) ++
        (if rt.is_variable then ["variable rate type"] else [])

/-- `PDFVendorMatcher._determine_contact_person` (lines 364-413). -/
def _determine_contact_person (m : Matcher) (vendor_name : String)
    (po : POResult) (dt : DateResult) (rt : RateResult) : ContactResult :=
  match m.vendor_data.lookup vendor_name with
  | none => { name := "Unknown", role := "Unknown", reason := "Vendor not found in database" }
  | some info =>
    let director := pyOr info.director info.asst_director
    if !anyFailure po dt rt && realC director then
      { name := director.getD "", role := "Director/Manager",
        reason := "All validations passed and rate is fixed" }
    else
      let main_contact := pyOr info.main_contact_cap info.main_contact
      let admin := pyOr info.admin_cap info.admin
      let contact := if realC main_contact then main_contact else admin
      if realC contact then
        let reasons := adminReasons po dt rt
        { name := contact.getD "", role := "Admin/Main Contact",
          reason := if reasons = [] then "Default admin contact"
                    else "Issue requires admin attention: " ++ String.intercalate ", " reasons }
      else
        { name := "Unknown", role := "Unknown", reason := "No contact information available" }

/-- `PDFVendorMatcher.query_amplify_api` (lines 183-289): `none` models the
Python `None` returned when the API is unconfigured, the HTTP status is not
200, or `requests` raised; an unparseable or empty 200 body yields the
literal `{"vendor": None}` dictionary. -/
def query_amplify_api (m : Matcher) (o : LLMOutcome VendorResp) : Option VendorResp :=
  if !m.api_configured then none
  else
    match o with
    | .ok r => some r
    | .parseFail => some ⟨none⟩
    | .emptyBody => some ⟨none⟩
    | .httpError => none
    | .exn _ => none

/-- The final result dictionary assembled by `process_pdf` (lines 341-360). -/
structure FinalResult where
  vendor : Option String
  method : String
  po_valid : Option Bool
  po_reason : String
  expected_po : Option String
  date_valid : Option Bool
  date_reason : String
  dates_found : List String
  valid_dates : List String
  rate_valid : Option Bool
  rate_reason : String
  rate_type : Option String
  expected_amount : Option Rat
  amounts_found : List Rat
  is_variable_rate : Bool
  contact_person : String
  contact_role : String
  contact_reason : String
deriving DecidableEq

/-- Possible return values of `process_pdf`: the `{"error": msg}` dictionary,
the fixed no-vendor dictionary
`{"vendor": None, "po_valid": None, "date_valid": None, "method": "amplify_api"}`,
or the full result dictionary. -/
inductive ProcessResult where
  | error (msg : String)
  | noVendor
  | result (r : FinalResult)
deriving DecidableEq

/-- `PDFVendorMatcher.process_pdf` (lines 291-362), taking the already
extracted PDF text (the result of `extract_pdf_text`) and one oracle per
external call. -/
def process_pdf (m : Matcher) (pdf_text : String) (ro : LLMOutcome VendorResp)
    (dor : LLMOutcome DateResult) (rro : LLMOutcome RateResult) : ProcessResult :=
  if pdf_text == "" then .error "Could not extract text from PDF"
  else if !m.api_configured then .error "API not configured"
  else
    match query_amplify_api m ro with
    | none => .noVendor
    | some resp =>
      match resp.vendor with
      | none => .noVendor
      | some v =>
        if v == "" then .noVendor
        else
          let po := validate_po_number m pdf_text v
          let dv := validate_date_range m v dor
          let rv := validate_rate m pdf_text v rro
          let contact := _determine_contact_person m v po dv rv
          .result {
            vendor := some v, method := "amplify_api",
            po_valid := po.po_valid, po_reason := po.reason, expected_po := po.expected_po,
            date_valid := dv.date_valid, date_reason := dv.reason,
            dates_found := dv.dates_found, valid_dates := dv.valid_dates,
            rate_valid := rv.rate_valid, rate_reason := rv.reason,
            rate_type := rv.rate_type, expected_amount := rv.expected_amount,
            amounts_found := rv.amounts_found, is_variable_rate := rv.is_variable,
            contact_person := contact.name, contact_role := contact.role,
            contact_reason := contact.reason }

/-- One spreadsheet cell of the `Vendors Rates` sheet: `blank` is `NaN`. -/
inductive Cell where
  | blank
  | str (s : String)
  | num (q : Rat)
deriving DecidableEq

/-- Python `str()` of a cell (`str(nan)` is `"nan"`). -/
def pyStrCell : Cell → String
  | .blank => "nan"
  | .str s => s
  | .num q => pyFloatStr q

/-- The vendor-name detection of `_load_rate_data` (lines 156-159): a row
starts a new vendor block iff its first cell is not `NaN`, strips to a
non-empty string different from `"nan"`, and is longer than 3 characters. -/
def rowVendorName (row : List Cell) : Option String :=
  let first := row.headD .blank
  if first == .blank then none
  else
    let s := pyStrip (pyStrCell first)
    if s == "" then none
    else if s == "nan" || s.length ≤ 3 then none
    else some s

/-- The fixed billing-cycle vocabulary of `_load_rate_data` (line 172). -/
def rateVocab : List String :=
  ["annual", "monthly", "weekly", "hourly", "biannual", "as needed", "variable"]

/-- The `for j in range(1, min(10, len(row)))` scan of `_load_rate_data`
(lines 170-174): the first cell among columns 1..9 whose stripped, lowered
text is in the vocabulary. -/
def findRateType (row : List Cell) : Option String :=
  (( List.range (min 10 row.length)).drop 1).findSome? fun j =>
    match row[j]? with
    | some c =>
      let v := lowerS (pyStrip (pyStrCell c))
      if v ∈ rateVocab then some v else none
    | none => none

/-- `if current_vendor not in self.vendor_data: self.vendor_data[current_vendor] = {}`
(lines 162-163); Python dicts append new keys at the end. -/
def ensureKey (d : List (String × VendorInfo)) (k : String) : List (String × VendorInfo) :=
  if (d.lookup k).isSome then d else d ++ [(k, ({} : VendorInfo))]

/-- In-place update of the entry at key `k` (insert-with-default if absent,
which never happens after `ensureKey`). -/
def updateAssoc (d : List (String × VendorInfo)) (k : String)
    (f : VendorInfo → VendorInfo) : List (String × VendorInfo) :=
  match d with
  | [] => [(k, f ({} : VendorInfo))]
  | (k', v) :: rest => if k' == k then (k', f v) :: rest else (k', v) :: updateAssoc rest k f

/-- One iteration of the `_load_rate_data` row loop (lines 152-174).  Note
that in the source the rate-amount read (`row.iloc[2]`, numbers only) and the
rate-type scan are nested inside the vendor-name branch, so a row that does
not carry a vendor name contributes nothing. -/
def rateRowStep (acc : Option String × List (String × VendorInfo)) (row : List Cell) :
    Option String × List (String × VendorInfo) :=
  match rowVendorName row with
  | none => acc
  | some name =>
    let d := ensureKey acc.2 name
    let d := match row[2]? with
      | some (Cell.num q) => updateAssoc d name (fun i => { i with rate_amount := some q })
      | _ => d
    let d := match findRateType row with
      | some t => updateAssoc d name (fun i => { i with rate_type := some t })
      | none => d
    (some name, d)

/-- `PDFVendorMatcher._load_rate_data` (lines 146-180): fold the row step over
the `Vendors Rates` sheet, starting from the `vendor_data` already loaded from
the agreements sheet. -/
def load_rate_data (rows : List (List Cell)) (d0 : List (String × VendorInfo)) :
    List (String × VendorInfo) :=
  (rows.foldl rateRowStep (none, d0)).2

/-! ### Helper lemmas about the Python string primitives -/

theorem leadsB_iff (n h : List Char) : leadsB n h = true ↔ ∃ t, h = n ++ t := by
  induction n generalizing h with
  | nil => simp [leadsB]
  | cons a as ih =>
    cases h with
    | nil => simp [leadsB]
    | cons b bs =>
      simp only [leadsB, Bool.and_eq_true, beq_iff_eq, ih, List.cons_append, List.cons.injEq]
      constructor
      · rintro ⟨rfl, t, rfl⟩
        exact ⟨t, rfl, rfl⟩
      · rintro ⟨t, rfl, rfl⟩
        exact ⟨rfl, t, rfl⟩

theorem hasSubB_iff (n h : List Char) : hasSubB n h = true ↔ ∃ p t, h = p ++ n ++ t := by
  induction h with
  | nil =>
    cases n with
    | nil => simp [hasSubB, List.isEmpty]
    | cons a as => simp [hasSubB, List.isEmpty]
  | cons b bs ih =>
    simp only [hasSubB, Bool.or_eq_true, leadsB_iff, ih]
    constructor
    · rintro (⟨t, he⟩ | ⟨p, t, rfl⟩)
      · exact ⟨[], t, by simpa using he⟩
      · exact ⟨b :: p, t, rfl⟩
    · rintro ⟨p, t, he⟩
      cases p with
      | nil =>
        refine Or.inl ⟨t, ?_⟩
        simpa using he
      | cons x xs =>
        rw [List.cons_append, List.cons_append] at he
        injection he with h1 h2
        exact Or.inr ⟨xs, t, by simpa using h2⟩

theorem strip_parts (l : List Char) : ∃ p t, l = p ++ stripL l ++ t := by
  refine ⟨l.takeWhile pySpace, ((l.dropWhile pySpace).reverse.takeWhile pySpace).reverse, ?_⟩
  have h2 : (l.dropWhile pySpace).reverse.takeWhile pySpace
      ++ (l.dropWhile pySpace).reverse.dropWhile pySpace = (l.dropWhile pySpace).reverse :=
    List.takeWhile_append_dropWhile pySpace ((l.dropWhile pySpace).reverse)
  calc l = l.takeWhile pySpace ++ l.dropWhile pySpace :=
        (List.takeWhile_append_dropWhile pySpace l).symm
    _ = l.takeWhile pySpace
        ++ ((l.dropWhile pySpace).reverse.takeWhile pySpace
            ++ (l.dropWhile pySpace).reverse.dropWhile pySpace).reverse := by
        rw [h2, List.reverse_reverse]
    _ = l.takeWhile pySpace
        ++ (((l.dropWhile pySpace).reverse.dropWhile pySpace).reverse
            ++ ((l.dropWhile pySpace).reverse.takeWhile pySpace).reverse) := by
        rw [List.reverse_append]
    _ = l.takeWhile pySpace ++ stripL l
        ++ ((l.dropWhile pySpace).reverse.takeWhile pySpace).reverse := by
        rw [stripL, List.append_assoc]

/-! ### Claim theorems -/

/-- Claim C2: for a vendor record in the registry, the PO check is
inapplicable (`po_valid = None`) exactly when the record has no PO on file
(`current_po` absent/NaN or empty); otherwise the outcome is valid iff the
trimmed expected PO occurs as a literal case-insensitive substring of the
document text, and embedding the exact PO string into any document text
always validates. -/
theorem po_check_inapplicable_or_substring (m : Matcher) (text v : String)
    (info : VendorInfo) (po pre suf : String)
    (h : m.vendor_data.lookup v = some info) :
    ((validate_po_number m text v).po_valid = none ↔ pyMissing info.current_po = true)
    ∧ (info.current_po = some po → po ≠ "" →
        ((validate_po_number m text v).po_valid = some true ↔
          occursIn (lowerS (pyStrip po)) (lowerS text)))
    ∧ (info.current_po = some po → po ≠ "" → text = pre ++ po ++ suf →
        (validate_po_number m text v).po_valid = some true) := by
  have key : ∀ po' : String, info.current_po = some po' → po' ≠ "" →
      ((validate_po_number m text v).po_valid = some true ↔
        occursIn (lowerS (pyStrip po')) (lowerS text)) := by
    intro po' hpo hne
    have hm : pyMissing (some po') = false := by
      show (po' == "") = false
      exact beq_eq_false_iff_ne.mpr hne
    rw [occursIn]
    cases hs : hasSubB (lowerS (pyStrip po')).data (lowerS text).data with
    | true =>
      obtain ⟨p, t, he⟩ := (hasSubB_iff _ _).mp hs
      constructor
      · intro _
        exact ⟨p, t, he⟩
      · intro _
        simp [validate_po_number, h, hpo, hm, hs]
    | false =>
      constructor
      · intro hvalid
        exfalso
        simp [validate_po_number, h, hpo, hm, hs] at hvalid
      · rintro ⟨p, t, he⟩
        exfalso
        have hb : hasSubB (lowerS (pyStrip po')).data (lowerS text).data = true :=
          (hasSubB_iff _ _).mpr ⟨p, t, he⟩
        rw [hs] at hb
        exact Bool.false_ne_true hb
  refine ⟨?_, key po, ?_⟩
  · cases hm : pyMissing info.current_po with
    | true => simp [validate_po_number, h, hm]
    | false =>
      simp only [validate_po_number, h, hm, Bool.false_eq_true, if_false]
      split <;> simp
  · intro hpo hne htext
    refine (key po hpo hne).mpr ?_
    obtain ⟨p2, t2, hsplit⟩ := strip_parts po.data
    refine ⟨pre.data.map Char.toLower ++ p2.map Char.toLower,
            t2.map Char.toLower ++ suf.data.map Char.toLower, ?_⟩
    subst htext
    show ((pre ++ po ++ suf).data.map Char.toLower) = _
    rw [String.data_append, String.data_append]
    conv_lhs => rw [hsplit]
    show (pre.data ++ (p2 ++ stripL po.data ++ t2) ++ suf.data).map Char.toLower = _
    simp only [List.map_append, List.append_assoc]
    rfl

/-- Claim C2 witness: a registry vendor with PO `P26003063`; embedding that
exact PO into a document text makes the PO check valid. -/
theorem po_check_inapplicable_or_substring_witness :
    (validate_po_number
        { vendor_data := [("V", { current_po := some "P26003063" })], api_configured := true }
        ("invoice with " ++ "P26003063" ++ " attached") "V").po_valid = some true :=
  (po_check_inapplicable_or_substring
      { vendor_data := [("V", { current_po := some "P26003063" })], api_configured := true }
      ("invoice with " ++ "P26003063" ++ " attached") "V"
      { current_po := some "P26003063" } "P26003063" "invoice with " " attached"
      (by decide)).2.2 (by decide) (by decide) rfl

/-- Claim C5: a vendor whose recorded rate type lowers to `variable` or
`as needed` gets a valid rate check flagged `is_variable`, for every document
text and regardless of the external call's outcome (the oracle is never
consulted). -/
theorem variable_rate_auto_valid (m : Matcher) (text v : String) (info : VendorInfo)
    (t : String) (o : LLMOutcome RateResult)
    (h : m.vendor_data.lookup v = some info) (ht : info.rate_type = some t)
    (hvar : lowerS t = "variable" ∨ lowerS t = "as needed") :
    (validate_rate m text v o).rate_valid = some true
    ∧ (validate_rate m text v o).is_variable = true := by
  have hne : t ≠ "" := by
    rintro rfl
    rcases hvar with hv | hv <;> exact absurd hv (by decide)
  have htr : truthyS (some t) = true := by simp [truthyS, hne]
  have hcond : (lowerS ((some t).getD "") == "variable"
      || lowerS ((some t).getD "") == "as needed") = true := by
    rcases hvar with hv | hv <;> simp [hv]
  constructor <;> simp [validate_rate, h, ht, htr, hcond] <;> rw [if_pos hvar]

/-- Claim C5 witness: a vendor with rate type `variable` passes the rate check
with `is_variable = true` even when the external call would have failed. -/
theorem variable_rate_auto_valid_witness :
    (validate_rate
        { vendor_data := [("V", { rate_type := some "variable" })], api_configured := true }
        "any document text" "V" .httpError).rate_valid = some true
    ∧ (validate_rate
        { vendor_data := [("V", { rate_type := some "variable" })], api_configured := true }
        "any document text" "V" .httpError).is_variable = true :=
  variable_rate_auto_valid
    { vendor_data := [("V", { rate_type := some "variable" })], api_configured := true }
    "any document text" "V" { rate_type := some "variable" } "variable" .httpError
    (by decide) (by decide) (by decide)

/-- Claim C9: when the extracted text is empty, `process_pdf` returns the
terminal `{"error": "Could not extract text from PDF"}` object, whatever the
registry and whatever every external oracle would have answered — so neither
vendor resolution nor any checker runs. -/
theorem empty_text_short_circuits (m : Matcher) (ro : LLMOutcome VendorResp)
    (dor : LLMOutcome DateResult) (rro : LLMOutcome RateResult) :
    process_pdf m "" ro dor rro = .error "Could not extract text from PDF" := rfl

/-- Claim C10: a resolver-returned vendor name that is not a registry key
makes each of the three checkers return `False` with reason
`Vendor not found in database`, and routing returns the
`Unknown`/`Unknown` contact with the same reason — no exception anywhere
(all embedded functions are total). -/
theorem unknown_vendor_checks_and_routing (m : Matcher) (text v : String)
    (dor : LLMOutcome DateResult) (rro : LLMOutcome RateResult)
    (h : m.vendor_data.lookup v = none) :
    validate_po_number m text v
      = { po_valid := some false, reason := "Vendor not found in database" }
    ∧ validate_date_range m v dor
      = { date_valid := some false, reason := "Vendor not found in database" }
    ∧ validate_rate m text v rro
      = { rate_valid := some false, reason := "Vendor not found in database" }
    ∧ _determine_contact_person m v (validate_po_number m text v)
        (validate_date_range m v dor) (validate_rate m text v rro)
      = { name := "Unknown", role := "Unknown", reason := "Vendor not found in database" } := by
  refine ⟨?_, ?_, ?_, ?_⟩ <;>
    simp [validate_po_number, validate_date_range, validate_rate,
      _determine_contact_person, h]

/-- Claim C10 witness: concrete empty registry and unknown vendor name. -/
theorem unknown_vendor_checks_and_routing_witness :
    validate_po_number { vendor_data := [], api_configured := true } "some invoice text" "Ghost Vendor"
      = { po_valid := some false, reason := "Vendor not found in database" }
    ∧ validate_date_range { vendor_data := [], api_configured := true } "Ghost Vendor"
        (LLMOutcome.httpError)
      = { date_valid := some false, reason := "Vendor not found in database" }
    ∧ validate_rate { vendor_data := [], api_configured := true } "some invoice text" "Ghost Vendor"
        (LLMOutcome.httpError)
      = { rate_valid := some false, reason := "Vendor not found in database" }
    ∧ _determine_contact_person { vendor_data := [], api_configured := true } "Ghost Vendor"
        (validate_po_number { vendor_data := [], api_configured := true } "some invoice text" "Ghost Vendor")
        (validate_date_range { vendor_data := [], api_configured := true } "Ghost Vendor"
          (LLMOutcome.httpError))
        (validate_rate { vendor_data := [], api_configured := true } "some invoice text" "Ghost Vendor"
          (LLMOutcome.httpError))
      = { name := "Unknown", role := "Unknown", reason := "Vendor not found in database" } :=
  unknown_vendor_checks_and_routing { vendor_data := [], api_configured := true }
    "some invoice text" "Ghost Vendor" .httpError .httpError (by decide)

/-- Claim C1 counterexample: a vendor with a director on file, an
inapplicable PO check (`po_valid = None`, the vendor has no PO in the
registry) and valid date and rate checks is still routed to the director,
although the PO check is not exactly `valid` — refuting the claim that
director routing requires all three checks to be exactly valid. -/
theorem director_role_despite_inapplicable_po :
    _determine_contact_person
        { vendor_data := [("V", { director := some "Dana" })], api_configured := true } "V"
        { po_valid := none, reason := "No PO number in database for this vendor" }
        { date_valid := some true, reason := "dates within contract period" }
        { rate_valid := some true, reason := "amount within tolerance" }
      = { name := "Dana", role := "Director/Manager",
          reason := "All validations passed and rate is fixed" }
    ∧ ({ po_valid := none, reason := "No PO number in database for this vendor" } : POResult).po_valid
        ≠ some true :=
  ⟨by decide, by decide⟩

/-- Claim C1 (amended): the routing role is `Director/Manager` only if no
check outcome is exactly invalid (`False`) and the rate is not flagged
variable; inapplicable/not-run checks (`None`) do not block director
routing. -/
theorem director_role_requires_no_invalid_check (m : Matcher) (v : String)
    (po : POResult) (dt : DateResult) (rt : RateResult)
    (h : (_determine_contact_person m v po dt rt).role = "Director/Manager") :
    po.po_valid ≠ some false ∧ dt.date_valid ≠ some false
    ∧ rt.rate_valid ≠ some false ∧ rt.is_variable = false := by
  cases hx : anyFailure po dt rt with
  | false =>
    have hx' := hx
    simp only [anyFailure, Bool.or_eq_false_iff, decide_eq_false_iff_not] at hx'
    exact ⟨hx'.1.1.1, hx'.1.1.2, hx'.1.2, hx'.2⟩
  | true =>
    exfalso
    rcases hl : m.vendor_data.lookup v with _ | info
    · simp [_determine_contact_person, hl] at h
    · simp only [_determine_contact_person, hl, hx, Bool.not_true, Bool.false_and,
        Bool.false_eq_true, if_false] at h
      by_cases h1 : realC (pyOr info.main_contact_cap info.main_contact) = true <;>
        by_cases h2 : realC (pyOr info.admin_cap info.admin) = true <;>
          simp [h1, h2] at h

/-- Claim C1 witness: an all-valid, fixed-rate input routed to the director. -/
theorem director_role_requires_no_invalid_check_witness :
    ({ po_valid := some true, reason := "PO number found in PDF" } : POResult).po_valid
        ≠ some false
    ∧ ({ date_valid := some true, reason := "date ok" } : DateResult).date_valid ≠ some false
    ∧ ({ rate_valid := some true, reason := "rate ok" } : RateResult).rate_valid ≠ some false
    ∧ ({ rate_valid := some true, reason := "rate ok" } : RateResult).is_variable = false :=
  director_role_requires_no_invalid_check
    { vendor_data := [("V", { director := some "Dana" })], api_configured := true } "V"
    { po_valid := some true, reason := "PO number found in PDF" }
    { date_valid := some true, reason := "date ok" }
    { rate_valid := some true, reason := "rate ok" } (by decide)

/-- Claim C4 counterexample: with the API configured and a non-empty
document, a resolver transport failure (non-200 status) and a confident
no-match (`{"vendor": null}` from a 200 response) produce the very same final
result value from `process_pdf` — the fixed no-vendor dictionary — refuting
the claim that the two outcomes must not produce the same result value. -/
theorem transport_failure_result_equals_no_match_result :
    process_pdf { vendor_data := [], api_configured := true } "invoice text"
        .httpError .httpError .httpError
      = process_pdf { vendor_data := [], api_configured := true } "invoice text"
          (.ok ⟨none⟩) .httpError .httpError
    ∧ process_pdf { vendor_data := [], api_configured := true } "invoice text"
        .httpError .httpError .httpError = .noVendor :=
  ⟨by decide, by decide⟩

/-- Claim C4 (amended): the two outcomes are distinguishable at the resolver
layer — `query_amplify_api` returns `None` on a transport failure and the
parsed `{"vendor": null}` on a confident no-match — but `process_pdf`
collapses both into the identical no-vendor result dictionary. -/
theorem resolver_distinguishes_but_result_collapses (m : Matcher) (text : String)
    (dor : LLMOutcome DateResult) (rro : LLMOutcome RateResult)
    (hconf : m.api_configured = true) (htext : text ≠ "") :
    query_amplify_api m .httpError = none
    ∧ query_amplify_api m (.ok ⟨none⟩) = some ⟨none⟩
    ∧ (none : Option VendorResp) ≠ some ⟨none⟩
    ∧ process_pdf m text .httpError dor rro = .noVendor
    ∧ process_pdf m text (.ok ⟨none⟩) dor rro = .noVendor := by
  have ht : (text == "") = false := beq_eq_false_iff_ne.mpr htext
  refine ⟨?_, ?_, ?_, ?_, ?_⟩ <;>
    simp [query_amplify_api, process_pdf, hconf, ht]

/-- Claim C4 witness: concrete configured matcher and non-empty text. -/
theorem resolver_distinguishes_but_result_collapses_witness :
    query_amplify_api { vendor_data := [], api_configured := true } .httpError = none
    ∧ query_amplify_api { vendor_data := [], api_configured := true } (.ok ⟨none⟩) = some ⟨none⟩
    ∧ (none : Option VendorResp) ≠ some ⟨none⟩
    ∧ process_pdf { vendor_data := [], api_configured := true } "invoice text"
        .httpError .httpError .httpError = .noVendor
    ∧ process_pdf { vendor_data := [], api_configured := true } "invoice text"
        (.ok ⟨none⟩) .httpError .httpError = .noVendor :=
  resolver_distinguishes_but_result_collapses { vendor_data := [], api_configured := true }
    "invoice text" .httpError .httpError (by decide) (by decide)

/-- Claim C6 counterexample: a vendor with a contract start date but no end
date gets an inapplicable date check (`date_valid = None`), although the
claim says the check is inapplicable only when both bounds are missing (here
the start is present), even though the external call would have reported a
valid date. -/
theorem date_check_inapplicable_when_only_end_missing :
    (validate_date_range
        { vendor_data := [("V", { contract_start := some "2025-01-01" })], api_configured := true }
        "V" (.ok { date_valid := some true, reason := "found a date in range" })).date_valid = none
    ∧ ({ contract_start := some "2025-01-01" } : VendorInfo).contract_start ≠ none :=
  ⟨by decide, by decide⟩

/-- Claim C6 (amended): the date check is inapplicable exactly when the
vendor record lacks the contract start date or lacks the contract end date
(either one missing suffices); when both are present it delegates to the
external call and, when the API is configured and the call succeeds, returns
the service's parsed verdict unchanged. -/
theorem date_check_inapplicable_iff_either_bound_missing (m : Matcher) (v : String)
    (info : VendorInfo) (o : LLMOutcome DateResult) (r : DateResult)
    (h : m.vendor_data.lookup v = some info) :
    ((pyMissing info.contract_start || pyMissing info.contract_end) = true →
      validate_date_range m v o
        = { date_valid := none, reason := "No contract date range in database for this vendor" })
    ∧ ((pyMissing info.contract_start || pyMissing info.contract_end) = false →
      validate_date_range m v o = validate_dates_with_llm m o)
    ∧ (m.api_configured = true → o = .ok r → validate_dates_with_llm m o = r) := by
  refine ⟨?_, ?_, ?_⟩
  · intro hcond
    simp [validate_date_range, h, hcond]
  · intro hcond
    simp [validate_date_range, h, hcond]
  · rintro hconf rfl
    simp [validate_dates_with_llm, hconf]

/-- Claim C6 witness: both contract bounds present, successful external call;
the check runs and passes the service's verdict through. -/
theorem date_check_inapplicable_iff_either_bound_missing_witness :
    validate_date_range
        { vendor_data :=
            [("V", { contract_start := some "2025-01-01", contract_end := some "2025-12-31" })],
          api_configured := true } "V"
        (.ok { date_valid := some true, reason := "found 2025-06-15 in range" })
      = validate_dates_with_llm
          { vendor_data :=
              [("V", { contract_start := some "2025-01-01", contract_end := some "2025-12-31" })],
            api_configured := true }
          (.ok { date_valid := some true, reason := "found 2025-06-15 in range" }) :=
  (date_check_inapplicable_iff_either_bound_missing
      { vendor_data :=
          [("V", { contract_start := some "2025-01-01", contract_end := some "2025-12-31" })],
        api_configured := true } "V"
      { contract_start := some "2025-01-01", contract_end := some "2025-12-31" }
      (.ok { date_valid := some true, reason := "found 2025-06-15 in range" })
      { date_valid := some true, reason := "found 2025-06-15 in range" }
      (by decide)).2.1 (by decide)

/-- Claim C7 counterexample: a rates-sheet block where the vendor-name row
carries no attributes and the following nameless row carries the rate amount
`500` in column 2; after loading, the vendor's record still has no
`rate_amount` — the nameless row's attributes were not attached to the
current vendor, refuting the carry-forward claim. -/
theorem nameless_row_rate_not_attached :
    load_rate_data [[Cell.str "Acme Corporation"], [Cell.blank, Cell.blank, Cell.num 500]] []
      = [("Acme Corporation", ({} : VendorInfo))]
    ∧ ({} : VendorInfo).rate_amount = none :=
  ⟨by decide, by decide⟩

/-- Claim C7 (amended): rate attributes (amount in column 2, rate-type
keyword in columns 1-9) are read only from rows that themselves carry a
vendor name in the first cell; a row that carries no vendor name is skipped
entirely, leaving both the current-vendor marker and the accumulated data
unchanged. -/
theorem nameless_row_is_skipped (acc : Option String × List (String × VendorInfo))
    (row : List Cell) (h : rowVendorName row = none) :
    rateRowStep acc row = acc := by
  simp [rateRowStep, h]

/-- Claim C7 witness: the amount-only row with a blank first cell leaves the
fold state untouched. -/
theorem nameless_row_is_skipped_witness :
    rateRowStep (some "Acme Corporation", [("Acme Corporation", ({} : VendorInfo))])
        [Cell.blank, Cell.blank, Cell.num 500]
      = (some "Acme Corporation", [("Acme Corporation", ({} : VendorInfo))]) :=
  nameless_row_is_skipped
    (some "Acme Corporation", [("Acme Corporation", ({} : VendorInfo))])
    [Cell.blank, Cell.blank, Cell.num 500] (by decide)

/-- Claim C8 counterexample: on the admin path with both an `Admin` and a
`Main Contact` on file, the code picks the main contact `Mary`, not the admin
`Alice` — refuting the claim that `adminContact` is preferred with the main
contact as fallback (the source tries Main Contact first). -/
theorem main_contact_preferred_over_admin :
    _determine_contact_person
        { vendor_data := [("V", { main_contact_cap := some "Mary", admin_cap := some "Alice" })],
          api_configured := true } "V"
        { po_valid := some false, reason := "PO number not found in PDF" }
        { date_valid := some true, reason := "date ok" }
        { rate_valid := some true, reason := "rate ok" }
      = { name := "Mary", role := "Admin/Main Contact",
          reason := "Issue requires admin attention: PO validation failed" }
    ∧ "Mary" ≠ "Alice" :=
  ⟨by decide, by decide⟩

theorem adminReasons_ne_nil (po : POResult) (dt : DateResult) (rt : RateResult)
    (h : anyFailure po dt rt = true) : adminReasons po dt rt ≠ [] := by
  simp only [anyFailure, Bool.or_eq_true, decide_eq_true_eq] at h
  rcases h with ((hp | hd) | hr) | hv
  · simp [adminReasons, hp]
  · simp [adminReasons, hd]
  · simp [adminReasons, hr]
  · simp [adminReasons, hv]

/-- Claim C8 (amended): on the admin path (some check failed or the rate is
variable), the `Main Contact` field is preferred and the `Admin` field is
used only as a fallback when the main contact is absent or blank; the chosen
contact carries the reason string enumerating which checks failed or were
variable. -/
theorem admin_path_contact_preference_and_reason (m : Matcher) (v s : String)
    (info : VendorInfo) (po : POResult) (dt : DateResult) (rt : RateResult)
    (h : m.vendor_data.lookup v = some info)
    (hfail : anyFailure po dt rt = true) :
    ((pyOr info.main_contact_cap info.main_contact = some s) → realC (some s) = true →
      _determine_contact_person m v po dt rt
        = { name := s, role := "Admin/Main Contact",
            reason := "Issue requires admin attention: "
              ++ String.intercalate ", " (adminReasons po dt rt) })
    ∧ (realC (pyOr info.main_contact_cap info.main_contact) = false →
        pyOr info.admin_cap info.admin = some s → realC (some s) = true →
        _determine_contact_person m v po dt rt
          = { name := s, role := "Admin/Main Contact",
              reason := "Issue requires admin attention: "
                ++ String.intercalate ", " (adminReasons po dt rt) }) := by
  have hne := adminReasons_ne_nil po dt rt hfail
  constructor
  · intro hmc hrc
    simp [_determine_contact_person, h, hfail, hmc, hrc, hne]
  · intro hmcf had hrc
    simp [_determine_contact_person, h, hfail, hmcf, had, hrc, hne]

/-- Claim C8 witness: failed PO check with both contact fields on file; the
main contact is chosen with the enumerating reason. -/
theorem admin_path_contact_preference_and_reason_witness :
    _determine_contact_person
        { vendor_data := [("V", { main_contact_cap := some "Mary", admin_cap := some "Alice" })],
          api_configured := true } "V"
        { po_valid := some false, reason := "PO number not found in PDF" }
        { date_valid := some true, reason := "date ok" }
        { rate_valid := some true, reason := "rate ok" }
      = { name := "Mary", role := "Admin/Main Contact",
          reason := "Issue requires admin attention: "
            ++ String.intercalate ", "
              (adminReasons { po_valid := some false, reason := "PO number not found in PDF" }
                { date_valid := some true, reason := "date ok" }
                { rate_valid := some true, reason := "rate ok" }) } :=
  (admin_path_contact_preference_and_reason
      { vendor_data := [("V", { main_contact_cap := some "Mary", admin_cap := some "Alice" })],
        api_configured := true } "V" "Mary"
      { main_contact_cap := some "Mary", admin_cap := some "Alice" }
      { po_valid := some false, reason := "PO number not found in PDF" }
      { date_valid := some true, reason := "date ok" }
      { rate_valid := some true, reason := "rate ok" }
      (by decide) (by decide)).1 (by decide) (by decide)

end PdfVendorMatcher
